import Mathlib

/-!
Shallow embedding of the STM32 I2C v1 blocking driver
(`src/embassy-stm32/src/i2c/v1.rs`).

Modelling conventions:
* Machine integers (`u32`, `u16`, `u8`) are `Nat` with explicit `% 2^w`
  at the points where the source performs a narrowing cast or where a
  `u32` multiplication can wrap (release-profile wrapping semantics).
* Rust panics (the `assert!` in `Timings::new` and an integer division
  by zero) are modelled by `Except Fatal _`.
* The memory-mapped peripheral is modelled by an `Oracle` supplying the
  successive values returned by each hardware register read, and every
  register access performed by the driver is recorded in a trace of
  `Act`s.  Busy-poll loops, which have no timeout in the source, are
  interpreted with explicit fuel; running out of fuel or out of oracle
  entries yields the `stuck` outcome (the loop would spin forever).
-/

/-- Error taxonomy of the driver (`enum Error` in `i2c/mod.rs`, as used by
`v1.rs`). -/
inductive Error where
  | Bus
  | Arbitration
  | Nack
  | Timeout
  | Crc
  | Overrun
  | ZeroLengthTransfer
  deriving DecidableEq

/-- Fatal (panicking) outcomes of `Timings::new`: the `assert!` on the
divisor range, and an integer division by zero. -/
inductive Fatal where
  | assertFailed
  | divByZero
  deriving DecidableEq

/-- Speed mode (`enum Mode` in v1.rs). -/
inductive Mode where
  | Fast
  | Standard
  deriving DecidableEq

/-- Fast-mode duty-cycle selection (`enum Duty` in v1.rs). -/
inductive Duty where
  | Duty2_1
  | Duty16_9
  deriving DecidableEq

/-- Result of the timing calculation (`struct Timings` in v1.rs).
Field widths in the source: `freq: u8`, `trise: u8`, `ccr: u16`. -/
structure Timings where
  freq : Nat
  mode : Mode
  trise : Nat
  ccr : Nat
  duty : Duty
  deriving DecidableEq

/-- Status register 1 (`SR1`): the five clearable error flags, the
errata-spurious bus-error flag, and the progress bits the driver polls. -/
structure Sr1 where
  timeout : Bool
  pecerr : Bool
  ovr : Bool
  af : Bool
  arlo : Bool
  berr : Bool
  start : Bool
  addr : Bool
  txe : Bool
  btf : Bool
  rxne : Bool
  deriving DecidableEq

/-- Status register 2 (`SR2`): the two bits the driver polls. -/
structure Sr2 where
  msl : Bool
  busy : Bool
  deriving DecidableEq

/-- Register accesses performed by the driver, in program order.
Control-register read-modify-writes are recorded by the bits they set or
clear (`writeCr1Start` is `set_start(true)`, `writeCr1StartAck` is
`set_start(true); set_ack(true)`, `writeCr1AckOffStop` is
`set_ack(false); set_stop(true)`, `writeCr1Stop` is `set_stop(true)`).
`readCr1` records the polled STOP bit.  `writeCr2Freq`, `writeCcr` and
`writeTrise` are the three clock-register writes of `set_config`. -/
inductive Act where
  | readSr1 (v : Sr1)
  | writeSr1 (v : Sr1)
  | readSr2 (v : Sr2)
  | readCr1 (stopBit : Bool)
  | writeCr1Start
  | writeCr1StartAck
  | writeCr1AckOffStop
  | writeCr1Stop
  | writeDr (b : Nat)
  | readDr (b : Nat)
  | writeCr2Freq (f : Nat)
  | writeCcr (m : Mode) (d : Duty) (c : Nat)
  | writeTrise (t : Nat)
  deriving DecidableEq

/-- Oracle of hardware-supplied register read results: successive values
returned by SR1 reads, SR2 reads, CR1 STOP-bit reads, and DR reads. -/
structure Oracle where
  sr1 : List Sr1
  sr2 : List Sr2
  stop : List Bool
  dr : List Nat
  deriving DecidableEq

/-- Outcome of running a driver operation against an oracle: normal
return, early return with a runtime `Error`, or `stuck` when a busy-poll
loop exhausts the oracle or the fuel (the source loop would spin). -/
inductive Outcome (α : Type) where
  | ok (a : α)
  | err (e : Error)
  | stuck
  deriving DecidableEq

/-- Execution of one driver fragment: outcome, the trace of register
accesses it performed, and the remaining oracle. -/
abbrev Step (α : Type) := Outcome α × List Act × Oracle

/-- Sequencing of driver fragments: errors and stuck outcomes propagate,
traces are concatenated in program order. -/
def bindStep {α β : Type} (s : Step α) (f : α → Oracle → Step β) : Step β :=
  match s with
  | (Outcome.ok a, tr, o) =>
    match f a o with
    | (r, tr2, o2) => (r, tr ++ tr2, o2)
  | (Outcome.err e, tr, o) => (Outcome.err e, tr, o)
  | (Outcome.stuck, tr, o) => (Outcome.stuck, tr, o)

namespace I2c

/-- Translation of `I2c::check_and_clear_error_flags` as a function of the
SR1 value read.  Returns the result of the call together with the value
written back to SR1 by the clearing `modify` (`none` when the source
performs no write).  The source reads SR1 once, then returns the first
error found in priority order TIMEOUT, PECERR, OVR, AF, ARLO, clearing
exactly that flag; BERR is errata-spurious, cleared but never returned,
and reached only when no error flag was found. -/
def check_and_clear_error_flags (s : Sr1) : Except Error Sr1 × Option Sr1 :=
  if s.timeout then (Except.error Error.Timeout, some { s with timeout := false })
  else if s.pecerr then (Except.error Error.Crc, some { s with pecerr := false })
  else if s.ovr then (Except.error Error.Overrun, some { s with ovr := false })
  else if s.af then (Except.error Error.Nack, some { s with af := false })
  else if s.arlo then (Except.error Error.Arbitration, some { s with arlo := false })
  else if s.berr then (Except.ok s, some { s with berr := false })
  else (Except.ok s, none)

/-- Interpreter step for one call to `check_and_clear_error_flags`:
consumes one SR1 oracle entry, records the read and (when the source
clears a flag) the write-back. -/
def checkStep (o : Oracle) : Option (Except Error Sr1 × List Act × Oracle) :=
  match o.sr1 with
  | [] => none
  | v :: rest =>
    let r := check_and_clear_error_flags v
    let tr := match r.2 with
      | some w => [Act.readSr1 v, Act.writeSr1 w]
      | none => [Act.readSr1 v]
    some (r.1, tr, { o with sr1 := rest })

/-- Busy-poll loop pattern `while !self.check_and_clear_error_flags()?.flag() {}`
used in `write_bytes` (START wait, ADDR wait) and `send_byte` (TXE wait,
BTF wait): every iteration first runs the error monitor and aborts with
its error; otherwise the progress bit `f` is tested on the same read. -/
def waitFlag (f : Sr1 → Bool) : Nat → Oracle → Step Unit
  | 0, o => (Outcome.stuck, [], o)
  | fuel+1, o =>
    match checkStep o with
    | none => (Outcome.stuck, [], o)
    | some (Except.error e, tr, o1) => (Outcome.err e, tr, o1)
    | some (Except.ok s, tr, o1) =>
      if f s then (Outcome.ok (), tr, o1)
      else
        match waitFlag f fuel o1 with
        | (r2, tr2, o2) => (r2, tr ++ tr2, o2)

/-- Master-role wait in `write_bytes`: each iteration runs the error
monitor, then reads SR2 and loops while `!msl && !busy`. -/
def waitMasterW : Nat → Oracle → Step Unit
  | 0, o => (Outcome.stuck, [], o)
  | fuel+1, o =>
    match checkStep o with
    | none => (Outcome.stuck, [], o)
    | some (Except.error e, tr, o1) => (Outcome.err e, tr, o1)
    | some (Except.ok _, tr, o1) =>
      match o1.sr2 with
      | [] => (Outcome.stuck, tr, o1)
      | v2 :: rest2 =>
        let o2 : Oracle := { o1 with sr2 := rest2 }
        if !v2.msl && !v2.busy then
          match waitMasterW fuel o2 with
          | (r2, tr2, o3) => (r2, tr ++ Act.readSr2 v2 :: tr2, o3)
        else (Outcome.ok (), tr ++ [Act.readSr2 v2], o2)

/-- Receive-ready wait in `recv_byte`: each iteration runs the error
monitor, then performs a second raw SR1 read and loops while RXNE is
clear. -/
def waitRxne : Nat → Oracle → Step Unit
  | 0, o => (Outcome.stuck, [], o)
  | fuel+1, o =>
    match checkStep o with
    | none => (Outcome.stuck, [], o)
    | some (Except.error e, tr, o1) => (Outcome.err e, tr, o1)
    | some (Except.ok _, tr, o1) =>
      match o1.sr1 with
      | [] => (Outcome.stuck, tr, o1)
      | v :: rest =>
        let o2 : Oracle := { o1 with sr1 := rest }
        if v.rxne then (Outcome.ok (), tr ++ [Act.readSr1 v], o2)
        else
          match waitRxne fuel o2 with
          | (r2, tr2, o3) => (r2, tr ++ Act.readSr1 v :: tr2, o3)

/-- START wait in `blocking_read`: a raw SR1 poll of the START bit with
no error check (`while !T::regs().sr1().read().start() {}`). -/
def rawWaitStart : Nat → Oracle → Step Unit
  | 0, o => (Outcome.stuck, [], o)
  | fuel+1, o =>
    match o.sr1 with
    | [] => (Outcome.stuck, [], o)
    | v :: rest =>
      let o1 : Oracle := { o with sr1 := rest }
      if v.start then (Outcome.ok (), [Act.readSr1 v], o1)
      else
        match rawWaitStart fuel o1 with
        | (r2, tr2, o2) => (r2, Act.readSr1 v :: tr2, o2)

/-- Master-role wait in `blocking_read`: a raw SR2 poll with no error
check, looping while `!msl && !busy`. -/
def rawWaitMaster : Nat → Oracle → Step Unit
  | 0, o => (Outcome.stuck, [], o)
  | fuel+1, o =>
    match o.sr2 with
    | [] => (Outcome.stuck, [], o)
    | v :: rest =>
      let o1 : Oracle := { o with sr2 := rest }
      if !v.msl && !v.busy then
        match rawWaitMaster fuel o1 with
        | (r2, tr2, o2) => (r2, Act.readSr2 v :: tr2, o2)
      else (Outcome.ok (), [Act.readSr2 v], o1)

/-- STOP-confirm wait (`while T::regs().cr1().read().stop() {}`): a raw
control-register poll with no error check. -/
def stopWait : Nat → Oracle → Step Unit
  | 0, o => (Outcome.stuck, [], o)
  | fuel+1, o =>
    match o.stop with
    | [] => (Outcome.stuck, [], o)
    | b :: rest =>
      let o1 : Oracle := { o with stop := rest }
      if b then
        match stopWait fuel o1 with
        | (r2, tr2, o2) => (r2, Act.readCr1 b :: tr2, o2)
      else (Outcome.ok (), [Act.readCr1 b], o1)

/-- ADDR-latch clearing read of SR2 (`let _ = T::regs().sr2().read();`). -/
def readSr2Step (o : Oracle) : Step Sr2 :=
  match o.sr2 with
  | [] => (Outcome.stuck, [], o)
  | v :: rest => (Outcome.ok v, [Act.readSr2 v], { o with sr2 := rest })

/-- Translation of `I2c::send_byte`: wait TXE (with error checks), write
the data register, wait BTF (with error checks). -/
def send_byte (byte : Nat) (fuel : Nat) (o : Oracle) : Step Unit :=
  bindStep (waitFlag (fun s => s.txe) fuel o) fun _ o =>
  bindStep ((Outcome.ok (), [Act.writeDr byte], o) : Step Unit) fun _ o =>
  waitFlag (fun s => s.btf) fuel o

/-- Translation of `I2c::recv_byte`: the RXNE wait loop (error check plus
raw SR1 read each iteration), then a data-register read. -/
def recv_byte (fuel : Nat) (o : Oracle) : Step Nat :=
  bindStep (waitRxne fuel o) fun _ o =>
  match o.dr with
  | [] => (Outcome.stuck, [], o)
  | b :: rest => (Outcome.ok b, [Act.readDr b], { o with dr := rest })

/-- Payload loop of `write_bytes` (`for c in bytes { self.send_byte(*c)?; }`). -/
def sendBytesLoop : List Nat → Nat → Oracle → Step Unit
  | [], _, o => (Outcome.ok (), [], o)
  | b :: bs, fuel, o =>
    bindStep (send_byte b fuel o) fun _ o => sendBytesLoop bs fuel o

/-- Translation of `I2c::write_bytes`: request START, wait for START
(with error checks), wait for master role (with error checks), write the
address byte `addr << 1` (u8 shift), wait ADDR (with error checks), clear
the ADDR latch by reading SR2, then send the payload bytes. -/
def write_bytes (addr : Nat) (bytes : List Nat) (fuel : Nat) (o : Oracle) : Step Unit :=
  bindStep ((Outcome.ok (), [Act.writeCr1Start], o) : Step Unit) fun _ o =>
  bindStep (waitFlag (fun s => s.start) fuel o) fun _ o =>
  bindStep (waitMasterW fuel o) fun _ o =>
  bindStep ((Outcome.ok (), [Act.writeDr ((2 * addr) % 256)], o) : Step Unit) fun _ o =>
  bindStep (waitFlag (fun s => s.addr) fuel o) fun _ o =>
  bindStep (readSr2Step o) fun _ o =>
  sendBytesLoop bytes fuel o

/-- Receive loop over the first `n` bytes of the destination buffer
(`for c in buffer { *c = self.recv_byte()?; }` after `split_last_mut`). -/
def recvLoop : Nat → Nat → Oracle → Step (List Nat)
  | 0, _, o => (Outcome.ok [], [], o)
  | n+1, fuel, o =>
    bindStep (recv_byte fuel o) fun b o =>
    bindStep (recvLoop n fuel o) fun bs o =>
    ((Outcome.ok (b :: bs), [], o) : Step (List Nat))

/-- Translation of `I2c::blocking_read` on a destination buffer of length
`n`.  An empty buffer returns `Err(Overrun)` before any register access.
Otherwise: request START with ACK, raw START wait (no error check), raw
master wait (no error check), write address byte `(addr << 1) + 1` (u8
arithmetic), ADDR wait (with error checks), clear the ADDR latch, receive
`n - 1` bytes, disable ACK and request STOP, receive the last byte, wait
for STOP to clear. -/
def blocking_read (addr n fuel : Nat) (o : Oracle) : Step (List Nat) :=
  if n = 0 then (Outcome.err Error.Overrun, [], o)
  else
    bindStep ((Outcome.ok (), [Act.writeCr1StartAck], o) : Step Unit) fun _ o =>
    bindStep (rawWaitStart fuel o) fun _ o =>
    bindStep (rawWaitMaster fuel o) fun _ o =>
    bindStep ((Outcome.ok (), [Act.writeDr (((2 * addr) % 256 + 1) % 256)], o) : Step Unit) fun _ o =>
    bindStep (waitFlag (fun s => s.addr) fuel o) fun _ o =>
    bindStep (readSr2Step o) fun _ o =>
    bindStep (recvLoop (n - 1) fuel o) fun firstBytes o =>
    bindStep ((Outcome.ok (), [Act.writeCr1AckOffStop], o) : Step Unit) fun _ o =>
    bindStep (recv_byte fuel o) fun lastByte o =>
    bindStep (stopWait fuel o) fun _ o =>
    ((Outcome.ok (firstBytes ++ [lastByte]), [], o) : Step (List Nat))

/-- Translation of `I2c::blocking_write`: `write_bytes`, then request
STOP and wait for it to clear. -/
def blocking_write (addr : Nat) (bytes : List Nat) (fuel : Nat) (o : Oracle) : Step Unit :=
  bindStep (write_bytes addr bytes fuel o) fun _ o =>
  bindStep ((Outcome.ok (), [Act.writeCr1Stop], o) : Step Unit) fun _ o =>
  stopWait fuel o

/-- Translation of `I2c::blocking_write_read`: the write phase
(`write_bytes`, which issues no STOP), then directly `blocking_read`
(whose START request is the repeated START). -/
def blocking_write_read (addr : Nat) (bytes : List Nat) (n fuel : Nat) (o : Oracle) :
    Step (List Nat) :=
  bindStep (write_bytes addr bytes fuel o) fun _ o =>
  blocking_read addr n fuel o

end I2c

/-- Translation of `Timings::new` (u32 arithmetic, release-profile
wrapping on multiplication, truncating `as u8` / `as u16` casts).  The
source asserts `2 <= freq && freq <= 50` for `freq = clock / 1_000_000`,
computes the rise time, then branches on `speed <= 100_000`; the fast
branch is selected by the hardwired constant `DUTYCYCLE = 0`, making the
16:9 branch dead code.  A division whose (possibly wrapped) divisor is
zero is the divide-by-zero panic. -/
def Timings.new (i2cclk speed : Nat) : Except Fatal Timings :=
  if 2 ≤ i2cclk / 1000000 ∧ i2cclk / 1000000 ≤ 50 then
    if speed ≤ 100000 then
      if (speed * 2) % 4294967296 = 0 then Except.error Fatal.divByZero
      else
        Except.ok
          { freq := (i2cclk / 1000000) % 256
            mode := Mode.Standard
            trise := (i2cclk / 1000000 + 1) % 256
            ccr :=
              (if i2cclk / ((speed * 2) % 4294967296) < 4 then 4
               else i2cclk / ((speed * 2) % 4294967296)) % 65536
            duty := Duty.Duty2_1 }
    else
      if (0 : Nat) = 0 then
        if (speed * 3) % 4294967296 = 0 then Except.error Fatal.divByZero
        else
          Except.ok
            { freq := (i2cclk / 1000000) % 256
              mode := Mode.Fast
              trise := ((i2cclk / 1000000) * 300 / 1000 + 1) % 256
              ccr :=
                (if i2cclk / ((speed * 3) % 4294967296) < 1 then 1
                 else i2cclk / ((speed * 3) % 4294967296)) % 65536
              duty := Duty.Duty2_1 }
      else
        if (speed * 25) % 4294967296 = 0 then Except.error Fatal.divByZero
        else
          Except.ok
            { freq := (i2cclk / 1000000) % 256
              mode := Mode.Fast
              trise := ((i2cclk / 1000000) * 300 / 1000 + 1) % 256
              ccr :=
                (if i2cclk / ((speed * 25) % 4294967296) < 1 then 1
                 else i2cclk / ((speed * 25) % 4294967296)) % 65536
              duty := Duty.Duty16_9 }
  else Except.error Fatal.assertFailed

namespace I2c

/-- Translation of `SetConfig::set_config`: recompute `Timings` for the
new target frequency and rewrite the three clock registers (CR2.FREQ,
CCR, TRISE), recorded as the trace of register writes it performs. -/
def set_config (clock target : Nat) : Except Fatal (List Act) :=
  match Timings.new clock target with
  | Except.error f => Except.error f
  | Except.ok t =>
    Except.ok [Act.writeCr2Freq t.freq, Act.writeCcr t.mode t.duty t.ccr,
      Act.writeTrise t.trise]

end I2c

/-- Projection: mode of a successfully constructed `Timings`. -/
def resMode : Except Fatal Timings → Option Mode
  | Except.ok t => some t.mode
  | Except.error _ => none

/-- Projection: duty of a successfully constructed `Timings`. -/
def resDuty : Except Fatal Timings → Option Duty
  | Except.ok t => some t.duty
  | Except.error _ => none

/-- Projection: stored CCR field of a successfully constructed `Timings`. -/
def resCcr : Except Fatal Timings → Option Nat
  | Except.ok t => some t.ccr
  | Except.error _ => none

/-- Projection: stored TRISE field of a successfully constructed `Timings`. -/
def resTrise : Except Fatal Timings → Option Nat
  | Except.ok t => some t.trise
  | Except.error _ => none

/-- Projection: whether `Timings::new` returned normally. -/
def resOk : Except Fatal Timings → Bool
  | Except.ok _ => true
  | Except.error _ => false

/-- Predicate: none of the five clearable error flags is set. -/
def Sr1.errFlagsClear (s : Sr1) : Prop :=
  s.timeout = false ∧ s.pecerr = false ∧ s.ovr = false ∧ s.af = false ∧ s.arlo = false

instance (s : Sr1) : Decidable s.errFlagsClear := by
  unfold Sr1.errFlagsClear; infer_instance

/-- Classifier: data-register writes. -/
def Act.isDrWrite : Act → Bool
  | Act.writeDr _ => true
  | _ => false

/-- Classifier: status-polling accesses (SR1/SR2/CR1 reads and SR1 flag
clearing), which touch no data register and request no bus condition. -/
def Act.isStatusAct : Act → Bool
  | Act.readSr1 _ => true
  | Act.writeSr1 _ => true
  | Act.readSr2 _ => true
  | Act.readCr1 _ => true
  | _ => false

/-- Classifier: bus-level operations (condition requests on CR1, address
and data bytes on DR) as opposed to status polling. -/
def Act.isBusOp : Act → Bool
  | Act.writeCr1Start => true
  | Act.writeCr1StartAck => true
  | Act.writeCr1AckOffStop => true
  | Act.writeCr1Stop => true
  | Act.writeDr _ => true
  | Act.readDr _ => true
  | _ => false

/-- Classifier: writes to the three clock registers. -/
def Act.isClockWrite : Act → Bool
  | Act.writeCr2Freq _ => true
  | Act.writeCcr _ _ _ => true
  | Act.writeTrise _ => true
  | _ => false

/-- Classifier: read-modify-writes of the control register CR1. -/
def Act.isCr1Write : Act → Bool
  | Act.writeCr1Start => true
  | Act.writeCr1StartAck => true
  | Act.writeCr1AckOffStop => true
  | Act.writeCr1Stop => true
  | _ => false

/-- First data-register write in a trace (the address-phase byte of a
transaction, when the transaction reaches the address phase). -/
def firstDr : List Act → Option Nat
  | [] => none
  | Act.writeDr b :: _ => some b
  | _ :: tl => firstDr tl

/-- SR1 value with no flag set. -/
def sr1Zero : Sr1 := ⟨false, false, false, false, false, false, false, false, false,
  false, false⟩

/-- SR1 value with only the START-generated progress bit set. -/
def sr1Start : Sr1 := { sr1Zero with start := true }

/-- SR1 value with only the address-acknowledged progress bit set. -/
def sr1Addr : Sr1 := { sr1Zero with addr := true }

/-- SR1 value with only the transmit-empty progress bit set. -/
def sr1Txe : Sr1 := { sr1Zero with txe := true }

/-- SR1 value with only the byte-transfer-complete progress bit set. -/
def sr1Btf : Sr1 := { sr1Zero with btf := true }

/-- SR1 value with only the receive-not-empty progress bit set. -/
def sr1Rxne : Sr1 := { sr1Zero with rxne := true }

/-- SR2 value reporting master role and busy bus. -/
def sr2Master : Sr2 := ⟨true, true⟩

/-- Happy-path oracle for a one-byte register write followed by a
two-byte read (`blocking_write_read addr [0x01] buffer_of_len_2`): every
wait loop succeeds on its first poll and the two data-register reads
return `b0` and `b1`. -/
def happyOracle (b0 b1 : Nat) : Oracle :=
  Oracle.mk
    [sr1Start, sr1Zero, sr1Addr, sr1Txe, sr1Btf, sr1Start, sr1Addr, sr1Zero, sr1Rxne,
      sr1Zero, sr1Rxne]
    [sr2Master, sr2Master, sr2Master, sr2Master]
    [false]
    [b0, b1]

/-- Claim C2 (counterexample): the claim says the spurious bus-error flag
is always cleared in every call to `check_and_clear_error_flags`.  With
TIMEOUT and BERR both set, the source returns `Err(Timeout)` after
clearing only TIMEOUT; the written-back SR1 still has BERR set. -/
theorem c2_berr_not_cleared_on_timeout :
    (I2c.check_and_clear_error_flags
        ⟨true, false, false, false, false, true, false, false, false, false, false⟩).1 =
      Except.error Error.Timeout ∧
    (I2c.check_and_clear_error_flags
        ⟨true, false, false, false, false, true, false, false, false, false, false⟩).2 =
      some ⟨false, false, false, false, false, true, false, false, false, false, false⟩ :=
  ⟨rfl, rfl⟩

/-- Claim C2 (amended): a single call reads status once and returns at
most one error, clearing exactly the flag corresponding to the error it
returns (the record update leaves every other flag, including BERR,
untouched); the spurious bus-error flag is never returned as an error and
is cleared exactly in the calls in which no error flag is set; when no
error flag is set the full status word as read is returned. -/
theorem c2_monitor_single_flag_amended (s : Sr1) :
    ((I2c.check_and_clear_error_flags s).1 = Except.error Error.Timeout →
      (I2c.check_and_clear_error_flags s).2 = some { s with timeout := false }) ∧
    ((I2c.check_and_clear_error_flags s).1 = Except.error Error.Crc →
      (I2c.check_and_clear_error_flags s).2 = some { s with pecerr := false }) ∧
    ((I2c.check_and_clear_error_flags s).1 = Except.error Error.Overrun →
      (I2c.check_and_clear_error_flags s).2 = some { s with ovr := false }) ∧
    ((I2c.check_and_clear_error_flags s).1 = Except.error Error.Nack →
      (I2c.check_and_clear_error_flags s).2 = some { s with af := false }) ∧
    ((I2c.check_and_clear_error_flags s).1 = Except.error Error.Arbitration →
      (I2c.check_and_clear_error_flags s).2 = some { s with arlo := false }) ∧
    ((I2c.check_and_clear_error_flags s).1 ≠ Except.error Error.Bus) ∧
    (s.errFlagsClear →
      (I2c.check_and_clear_error_flags s).1 = Except.ok s ∧
      (s.berr = true →
        (I2c.check_and_clear_error_flags s).2 = some { s with berr := false }) ∧
      (s.berr = false → (I2c.check_and_clear_error_flags s).2 = none)) := by
  rcases s with ⟨t, p, ov, a, ar, b, st, ad, tx, bt, rx⟩
  cases t <;> cases p <;> cases ov <;> cases a <;> cases ar <;> cases b <;>
    simp [I2c.check_and_clear_error_flags, Sr1.errFlagsClear]

/-- Claim C2 (witness): with only TIMEOUT set, the monitor clears exactly
the TIMEOUT flag. -/
theorem c2_monitor_single_flag_witness :
    (I2c.check_and_clear_error_flags
        ⟨true, false, false, false, false, false, false, false, false, false, false⟩).2 =
      some ⟨false, false, false, false, false, false, false, false, false, false, false⟩ :=
  (c2_monitor_single_flag_amended
    ⟨true, false, false, false, false, false, false, false, false, false, false⟩).1 rfl

/-- Claim C5: `blocking_read` with a zero-length destination buffer
returns `Err(Overrun)` with an empty action trace (no START request, no
address write, no control-register change) and an untouched oracle. -/
theorem c5_empty_read_overrun (addr fuel : Nat) (o : Oracle) :
    I2c.blocking_read addr 0 fuel o = (Outcome.err Error.Overrun, [], o) :=
  rfl

/-- Claim C10: for every clock whose divisor is in [2,50], calling the
timing calculation with target frequency 0 takes the standard-mode branch
and divides by `speed * 2 = 0`: construction and `set_config` hit the
division-by-zero panic, so a strictly positive target frequency is an
unstated precondition of `new` and `set_config`. -/
theorem c10_zero_target_div_by_zero (clock : Nat)
    (h2 : 2 ≤ clock / 1000000) (h50 : clock / 1000000 ≤ 50) :
    Timings.new clock 0 = Except.error Fatal.divByZero ∧
    I2c.set_config clock 0 = Except.error Fatal.divByZero := by
  have h1 : Timings.new clock 0 = Except.error Fatal.divByZero := by
    unfold Timings.new
    rw [if_pos ⟨h2, h50⟩]
    rfl
  exact ⟨h1, by simp [I2c.set_config, h1]⟩

/-- Claim C10 (witness): concrete instance at an 8 MHz clock. -/
theorem c10_zero_target_div_by_zero_witness :
    Timings.new 8000000 0 = Except.error Fatal.divByZero ∧
    I2c.set_config 8000000 0 = Except.error Fatal.divByZero :=
  c10_zero_target_div_by_zero 8000000 (by norm_num) (by norm_num)

/-- Claim C9 (counterexample): the claim says construction succeeds for
every clock whose divisor is in [2,50]; at an 8 MHz clock (divisor 8)
with target frequency 0 the construction panics with a division by zero
instead of succeeding. -/
theorem c9_zero_target_in_range_panics :
    Timings.new 8000000 0 = Except.error Fatal.divByZero ∧
    resOk (Timings.new 8000000 0) = false ∧
    2 ≤ 8000000 / 1000000 ∧ 8000000 / 1000000 ≤ 50 :=
  ⟨rfl, rfl, by norm_num, by norm_num⟩

/-- Helper: for a positive u32 value `t`, the wrapped product `t * 3`
cannot be zero (2^32 and 3 are coprime), so the fast-mode divisor is
never zero. -/
theorem mul3_mod_u32_ne_zero (t : Nat) (hpos : 0 < t) (hlt : t < 4294967296) :
    ¬((t * 3) % 4294967296 = 0) := by
  intro h0
  obtain ⟨q, hq⟩ : (4294967296 : Nat) ∣ t * 3 := Nat.dvd_of_mod_eq_zero h0
  clear h0
  have hm : (4294967296 * q) % 3 = q % 3 := by
    rw [Nat.mul_mod]
    norm_num
  have hm2 : (t * 3) % 3 = 0 := by
    simp [Nat.mul_mod]
  rw [hq] at hm2
  rw [hm2] at hm
  obtain ⟨q2, rfl⟩ : 3 ∣ q := Nat.dvd_of_mod_eq_zero hm.symm
  have ht : t = 4294967296 * q2 := by omega
  omega

/-- Claim C9 (amended): for every clock whose divisor lies in [2,50] and
every positive u32 target frequency, the assertion passes and
construction returns normally; for every clock whose divisor falls
outside [2,50], `Timings::new` fails the assertion (a fatal configuration
error, not a runtime `Error` — the return type carries `Fatal`, not
`Error`). -/
theorem c9_divisor_assert_amended (clock target : Nat) :
    (2 ≤ clock / 1000000 → clock / 1000000 ≤ 50 → 0 < target → target < 4294967296 →
      resOk (Timings.new clock target) = true) ∧
    (¬(2 ≤ clock / 1000000 ∧ clock / 1000000 ≤ 50) →
      Timings.new clock target = Except.error Fatal.assertFailed) := by
  constructor
  · intro h2 h50 hpos hlt
    unfold Timings.new
    rw [if_pos ⟨h2, h50⟩]
    by_cases hs : target ≤ 100000
    · rw [if_pos hs]
      have hd : ¬((target * 2) % 4294967296 = 0) := by omega
      rw [if_neg hd]
      rfl
    · rw [if_neg hs]
      rw [if_pos rfl]
      rw [if_neg (mul3_mod_u32_ne_zero target hpos hlt)]
      rfl
  · intro h
    unfold Timings.new
    rw [if_neg h]

/-- Claim C9 (witness): construction succeeds at 8 MHz clock and 100 kHz
target; construction fails the assertion at a 1 MHz clock (divisor 1). -/
theorem c9_divisor_assert_witness :
    resOk (Timings.new 8000000 100000) = true ∧
    Timings.new 1000000 100000 = Except.error Fatal.assertFailed :=
  ⟨(c9_divisor_assert_amended 8000000 100000).1 (by norm_num) (by norm_num)
      (by norm_num) (by norm_num),
   (c9_divisor_assert_amended 1000000 100000).2 (by norm_num)⟩

/-- Claim C8: whenever `Timings::new` returns (divisor in [2,50]), the
stored rise time equals `divisor + 1` for targets at or below 100 kHz and
`divisor * 300 / 1000 + 1` above, in exact integer arithmetic (the values
are at most 51, so the `as u8` cast is the identity). -/
theorem c8_trise_value (clock target x : Nat)
    (h2 : 2 ≤ clock / 1000000) (h50 : clock / 1000000 ≤ 50)
    (h : resTrise (Timings.new clock target) = some x) :
    x = if target ≤ 100000 then clock / 1000000 + 1
        else clock / 1000000 * 300 / 1000 + 1 := by
  unfold Timings.new at h
  rw [if_pos ⟨h2, h50⟩] at h
  by_cases hs : target ≤ 100000
  · rw [if_pos hs] at h
    rw [if_pos hs]
    split at h
    · simp [resTrise] at h
    · simp [resTrise] at h
      omega
  · rw [if_neg hs] at h
    rw [if_neg hs]
    rw [if_pos rfl] at h
    split at h
    · simp [resTrise] at h
    · simp [resTrise] at h
      omega

/-- Claim C8 (witness): at an 8 MHz clock and 100 kHz target the stored
rise time is 9 = divisor + 1. -/
theorem c8_trise_value_witness :
    (9 : Nat) = if (100000 : Nat) ≤ 100000 then 8000000 / 1000000 + 1
        else 8000000 / 1000000 * 300 / 1000 + 1 :=
  c8_trise_value 8000000 100000 9 (by norm_num) (by norm_num) rfl

/-- Claim C3 (counterexample): the claim says the returned ccr equals
`max(4, clock/(target*2))` (hence at least 4) in standard mode and
`max(1, clock/(target*3))` in fast mode.  The source stores ccr through a
truncating `as u16` cast: at clock 26,214,400 Hz and target 200 Hz the
computed value is 65536 and the stored field is 0 (also violating
`ccr >= 4`); and the u32 product `target * 3` wraps: at clock 2 MHz and
target 1,431,655,766 Hz the wrapped divisor is 2 and the stored field is
16960 instead of `max(1, clock/(target*3)) = 1`. -/
theorem c3_ccr_u16_truncation :
    Timings.new 26214400 200 =
      Except.ok (Timings.mk 26 Mode.Standard 27 0 Duty.Duty2_1) ∧
    ¬(4 ≤ (0 : Nat)) ∧
    2000000 ≤ 26214400 ∧ 26214400 ≤ 50000000 ∧ (200 : Nat) ≤ 100000 ∧
    Timings.new 2000000 1431655766 =
      Except.ok (Timings.mk 2 Mode.Fast 1 16960 Duty.Duty2_1) ∧
    max 1 (2000000 / (1431655766 * 3)) = 1 :=
  ⟨rfl, by norm_num, by norm_num, by norm_num, by norm_num, rfl, by norm_num⟩

/-- Claim C3 (amended): for 2 MHz ≤ clock ≤ 50 MHz and target > 0: if
target ≤ 100 kHz and `clock/(target*2)` fits in u16, the result is
Standard mode, 2:1 duty, stored ccr = `max(4, clock/(target*2))` ≥ 4; if
target > 100 kHz and `target*3` does not wrap u32, the result is Fast
mode, 2:1 duty, stored ccr = `max(1, clock/(target*3))` ≥ 1 (that value
is at most 166, so the u16 cast is the identity); outside these fitting
conditions the stored ccr is the computed value mod 2^16.  The 16:9 duty
branch is unreachable: every constructed `Timings` has 2:1 duty. -/
theorem c3_timings_modes_amended (clock target : Nat)
    (hc1 : 2000000 ≤ clock) (hc2 : clock ≤ 50000000) (hpos : 0 < target) :
    (target ≤ 100000 → clock / (target * 2) ≤ 65535 →
      resMode (Timings.new clock target) = some Mode.Standard ∧
      resDuty (Timings.new clock target) = some Duty.Duty2_1 ∧
      resCcr (Timings.new clock target) = some (max 4 (clock / (target * 2))) ∧
      4 ≤ max 4 (clock / (target * 2))) ∧
    (100000 < target → target * 3 < 4294967296 →
      resMode (Timings.new clock target) = some Mode.Fast ∧
      resDuty (Timings.new clock target) = some Duty.Duty2_1 ∧
      resCcr (Timings.new clock target) = some (max 1 (clock / (target * 3))) ∧
      1 ≤ max 1 (clock / (target * 3))) ∧
    (∀ d, resDuty (Timings.new clock target) = some d → d = Duty.Duty2_1) := by
  have hf2 : 2 ≤ clock / 1000000 := by
    have h := Nat.div_le_div_right (c := 1000000) hc1
    norm_num at h
    exact h
  have hf50 : clock / 1000000 ≤ 50 := by
    have h := Nat.div_le_div_right (c := 1000000) hc2
    norm_num at h
    exact h
  refine ⟨?_, ?_, ?_⟩
  · intro hle hfit
    have hm : (target * 2) % 4294967296 = target * 2 := Nat.mod_eq_of_lt (by omega)
    have hd : ¬((target * 2) % 4294967296 = 0) := by omega
    unfold Timings.new
    rw [if_pos ⟨hf2, hf50⟩, if_pos hle, if_neg hd, hm]
    refine ⟨rfl, rfl, ?_, le_max_left 4 _⟩
    show some ((if clock / (target * 2) < 4 then 4 else clock / (target * 2)) % 65536) =
      some (max 4 (clock / (target * 2)))
    have hmax : (if clock / (target * 2) < 4 then 4 else clock / (target * 2)) =
        max 4 (clock / (target * 2)) := by
      split <;> omega
    rw [hmax, Nat.mod_eq_of_lt (by omega)]
  · intro hgt hfit3
    have hm : (target * 3) % 4294967296 = target * 3 := Nat.mod_eq_of_lt hfit3
    have hd : ¬((target * 3) % 4294967296 = 0) := by omega
    have h166 : (50000000 : Nat) / 300003 = 166 := by norm_num
    have hbound : clock / (target * 3) ≤ 166 := by
      have h1 : clock / (target * 3) ≤ clock / 300003 :=
        Nat.div_le_div_left (by omega) (by norm_num)
      have h2 : clock / 300003 ≤ 50000000 / 300003 :=
        Nat.div_le_div_right (c := 300003) hc2
      omega
    unfold Timings.new
    rw [if_pos ⟨hf2, hf50⟩, if_neg (by omega : ¬(target ≤ 100000)), if_pos rfl,
      if_neg hd, hm]
    refine ⟨rfl, rfl, ?_, le_max_left 1 _⟩
    show some ((if clock / (target * 3) < 1 then 1 else clock / (target * 3)) % 65536) =
      some (max 1 (clock / (target * 3)))
    have hmax : (if clock / (target * 3) < 1 then 1 else clock / (target * 3)) =
        max 1 (clock / (target * 3)) := by
      split <;> omega
    rw [hmax, Nat.mod_eq_of_lt (by omega)]
  · intro d hdy
    unfold Timings.new at hdy
    rw [if_pos ⟨hf2, hf50⟩] at hdy
    by_cases hs : target ≤ 100000
    · rw [if_pos hs] at hdy
      split at hdy
      · simp [resDuty] at hdy
      · simp [resDuty] at hdy
        first
        | exact hdy
        | exact hdy.symm
    · rw [if_neg hs, if_pos rfl] at hdy
      split at hdy
      · simp [resDuty] at hdy
      · simp [resDuty] at hdy
        first
        | exact hdy
        | exact hdy.symm

/-- Claim C3 (witness): standard mode at (8 MHz, 100 kHz) with stored
ccr = max(4, 40) = 40, and fast mode at (8 MHz, 400 kHz) with stored
ccr = max(1, 6) = 6. -/
theorem c3_timings_modes_witness :
    resMode (Timings.new 8000000 100000) = some Mode.Standard ∧
    resCcr (Timings.new 8000000 100000) = some (max 4 (8000000 / (100000 * 2))) ∧
    resMode (Timings.new 8000000 400000) = some Mode.Fast ∧
    resCcr (Timings.new 8000000 400000) = some (max 1 (8000000 / (400000 * 3))) :=
  ⟨((c3_timings_modes_amended 8000000 100000 (by norm_num) (by norm_num)
      (by norm_num)).1 (by norm_num) (by norm_num)).1,
   ((c3_timings_modes_amended 8000000 100000 (by norm_num) (by norm_num)
      (by norm_num)).1 (by norm_num) (by norm_num)).2.2.1,
   ((c3_timings_modes_amended 8000000 400000 (by norm_num) (by norm_num)
      (by norm_num)).2.1 (by norm_num) (by norm_num)).1,
   ((c3_timings_modes_amended 8000000 400000 (by norm_num) (by norm_num)
      (by norm_num)).2.1 (by norm_num) (by norm_num)).2.2.1⟩

/-- Helper: one error-monitor step records only status accesses. -/
theorem checkStep_status (o : Oracle) (r : Except Error Sr1) (tr : List Act)
    (o1 : Oracle) (h : I2c.checkStep o = some (r, tr, o1)) :
    ∀ a ∈ tr, a.isStatusAct = true := by
  unfold I2c.checkStep at h
  rcases ho : o.sr1 with _ | ⟨v, rest⟩ <;> rw [ho] at h
  · simp at h
  · simp only [Option.some.injEq, Prod.mk.injEq] at h
    obtain ⟨h1, h2, h3⟩ := h
    subst h2
    rcases (I2c.check_and_clear_error_flags v).2 with _ | w <;>
      simp [Act.isStatusAct]

/-- Helper: the loops of `write_bytes`, `send_byte` and `recv_byte`
record only status accesses in their traces. -/
theorem waitFlag_status (f : Sr1 → Bool) :
    ∀ fuel o, ∀ a ∈ (I2c.waitFlag f fuel o).2.1, a.isStatusAct = true := by
  intro fuel
  induction fuel with
  | zero => intro o; simp [I2c.waitFlag]
  | succ n ih =>
    intro o
    unfold I2c.waitFlag
    split
    · simp
    next e tr o1 heq =>
      simpa using checkStep_status o _ tr o1 heq
    next s tr o1 heq =>
      split
      · simpa using checkStep_status o _ tr o1 heq
      · split
        next r2 tr2 o2 heq2 =>
          intro a ha
          simp only [List.mem_append] at ha
          rcases ha with ha | ha
          · exact checkStep_status o _ tr o1 heq a ha
          · have := ih o1 a
            rw [heq2] at this
            exact this ha

/-- Helper: the master-role wait of `write_bytes` records only status
accesses. -/
theorem waitMasterW_status :
    ∀ fuel o, ∀ a ∈ (I2c.waitMasterW fuel o).2.1, a.isStatusAct = true := by
  intro fuel
  induction fuel with
  | zero => intro o; simp [I2c.waitMasterW]
  | succ n ih =>
    intro o
    unfold I2c.waitMasterW
    split
    · simp
    next e tr o1 heq => simpa using checkStep_status o _ tr o1 heq
    next s tr o1 heq =>
      split
      · simpa using checkStep_status o _ tr o1 heq
      next v2 rest2 hsr2 =>
        dsimp only
        split
        · intro a ha
          simp only [List.mem_append, List.mem_cons] at ha
          rcases ha with ha | ha | ha
          · exact checkStep_status o _ tr o1 heq a ha
          · subst ha; rfl
          · exact ih _ a ha
        · intro a ha
          simp only [List.mem_append, List.mem_singleton] at ha
          rcases ha with ha | ha
          · exact checkStep_status o _ tr o1 heq a ha
          · subst ha; rfl

/-- Helper: the raw START wait of `blocking_read` records only status
accesses. -/
theorem rawWaitStart_status :
    ∀ fuel o, ∀ a ∈ (I2c.rawWaitStart fuel o).2.1, a.isStatusAct = true := by
  intro fuel
  induction fuel with
  | zero => intro o; simp [I2c.rawWaitStart]
  | succ n ih =>
    intro o
    unfold I2c.rawWaitStart
    split
    · simp
    next v rest hsr1 =>
      dsimp only
      split
      · simp [Act.isStatusAct]
      · intro a ha
        simp only [List.mem_cons] at ha
        rcases ha with ha | ha
        · subst ha; rfl
        · exact ih _ a ha

/-- Helper: the raw master-role wait of `blocking_read` records only
status accesses. -/
theorem rawWaitMaster_status :
    ∀ fuel o, ∀ a ∈ (I2c.rawWaitMaster fuel o).2.1, a.isStatusAct = true := by
  intro fuel
  induction fuel with
  | zero => intro o; simp [I2c.rawWaitMaster]
  | succ n ih =>
    intro o
    unfold I2c.rawWaitMaster
    split
    · simp
    next v rest hsr2 =>
      dsimp only
      split
      · intro a ha
        simp only [List.mem_cons] at ha
        rcases ha with ha | ha
        · subst ha; rfl
        · exact ih _ a ha
      · simp [Act.isStatusAct]

/-- Helper: the raw START wait of `blocking_read` contains no error check
and can never abort with an error. -/
theorem rawWaitStart_no_err (e : Error) :
    ∀ fuel o, ¬((I2c.rawWaitStart fuel o).1 = Outcome.err e) := by
  intro fuel
  induction fuel with
  | zero => intro o; simp [I2c.rawWaitStart]
  | succ n ih =>
    intro o
    unfold I2c.rawWaitStart
    split
    · simp
    next v rest hsr1 =>
      dsimp only
      split
      · simp
      · exact ih _

/-- Helper: the raw master-role wait of `blocking_read` contains no error
check and can never abort with an error. -/
theorem rawWaitMaster_no_err (e : Error) :
    ∀ fuel o, ¬((I2c.rawWaitMaster fuel o).1 = Outcome.err e) := by
  intro fuel
  induction fuel with
  | zero => intro o; simp [I2c.rawWaitMaster]
  | succ n ih =>
    intro o
    unfold I2c.rawWaitMaster
    split
    · simp
    next v rest hsr2 =>
      dsimp only
      split
      · exact ih _
      · simp

/-- Helper: the STOP-confirm wait polls the control register with no
error check and can never abort with an error. -/
theorem stopWait_no_err (e : Error) :
    ∀ fuel o, ¬((I2c.stopWait fuel o).1 = Outcome.err e) := by
  intro fuel
  induction fuel with
  | zero => intro o; simp [I2c.stopWait]
  | succ n ih =>
    intro o
    unfold I2c.stopWait
    split
    · simp
    next b rest hstop =>
      dsimp only
      split
      · exact ih _
      · simp

/-- Helper: a checked wait loop whose next SR1 read carries an error flag
aborts immediately with the monitor's error. -/
theorem waitFlag_err (f : Sr1 → Bool) (e : Error) (v : Sr1) (rest : List Sr1)
    (o : Oracle) (fuel : Nat)
    (he : (I2c.check_and_clear_error_flags v).1 = Except.error e)
    (ho : o.sr1 = v :: rest) (hf : 0 < fuel) :
    (I2c.waitFlag f fuel o).1 = Outcome.err e := by
  cases fuel with
  | zero => omega
  | succ n =>
    unfold I2c.waitFlag I2c.checkStep
    rw [ho]
    simp [he]

/-- Helper: the checked master-role wait of `write_bytes` aborts
immediately with the monitor's error. -/
theorem waitMasterW_err (e : Error) (v : Sr1) (rest : List Sr1)
    (o : Oracle) (fuel : Nat)
    (he : (I2c.check_and_clear_error_flags v).1 = Except.error e)
    (ho : o.sr1 = v :: rest) (hf : 0 < fuel) :
    (I2c.waitMasterW fuel o).1 = Outcome.err e := by
  cases fuel with
  | zero => omega
  | succ n =>
    unfold I2c.waitMasterW I2c.checkStep
    rw [ho]
    simp [he]

/-- Helper: the checked receive wait of `recv_byte` aborts immediately
with the monitor's error. -/
theorem waitRxne_err (e : Error) (v : Sr1) (rest : List Sr1)
    (o : Oracle) (fuel : Nat)
    (he : (I2c.check_and_clear_error_flags v).1 = Except.error e)
    (ho : o.sr1 = v :: rest) (hf : 0 < fuel) :
    (I2c.waitRxne fuel o).1 = Outcome.err e := by
  cases fuel with
  | zero => omega
  | succ n =>
    unfold I2c.waitRxne I2c.checkStep
    rw [ho]
    simp [he]

/-- Helper: the trace of a sequenced fragment is the first trace followed
by the continuation's trace when the first fragment returned normally. -/
theorem bindStep_trace {α β : Type} (s : Step α) (f : α → Oracle → Step β) :
    (bindStep s f).2.1 = s.2.1 ++ (match s.1 with
      | Outcome.ok a => (f a s.2.2).2.1
      | Outcome.err _ => []
      | Outcome.stuck => []) := by
  rcases s with ⟨r, tr, o⟩
  cases r with
  | ok a =>
    rcases hf : f a o with ⟨r2, tr2, o2⟩
    simp [bindStep, hf]
  | err e => simp [bindStep]
  | stuck => simp [bindStep]

/-- Helper: status-only actions never contain a data-register write, so
they are transparent to `firstDr`. -/
theorem firstDr_status_append (tr1 tr2 : List Act)
    (h : ∀ a ∈ tr1, a.isStatusAct = true) :
    firstDr (tr1 ++ tr2) = firstDr tr2 := by
  induction tr1 with
  | nil => rfl
  | cons a tl ih =>
    have ha := h a (by simp)
    have htl : ∀ x ∈ tl, x.isStatusAct = true := fun x hx => h x (by simp [hx])
    cases a <;> simp only [Act.isStatusAct] at ha <;>
      first
      | (simp only [List.cons_append, firstDr]
         exact ih htl)
      | exact absurd ha (by simp)

/-- Helper: a status-only trace has no data-register write at all. -/
theorem firstDr_status_none (tr : List Act)
    (h : ∀ a ∈ tr, a.isStatusAct = true) : firstDr tr = none := by
  have h2 := firstDr_status_append tr [] h
  simpa using h2

/-- Helper: a sequenced fragment whose first part aborted with an error
propagates exactly that error. -/
theorem bindStep_err {α β : Type} (s : Step α) (f : α → Oracle → Step β) (e : Error)
    (h : s.1 = Outcome.err e) : (bindStep s f).1 = Outcome.err e := by
  rcases s with ⟨r, tr, o⟩
  cases r with
  | ok a =>
    simp at h
  | err e2 =>
    simp at h
    subst h
    simp [bindStep]
  | stuck => simp at h

/-- Claim C1 (counterexample): the claim says every busy-poll wait loop
checks the Error Flag Monitor each iteration and aborts with its error.
With a NACK (AF) flag set in SR1 throughout, `blocking_read`'s
START-generated wait loop keeps polling the raw START bit: the operation
never returns `Err(Nack)` (it spins, modelled as `stuck`), and its trace
shows three raw SR1 reads with the error flag set and no monitor
invocation (no clearing write-back). -/
theorem c1_blocking_read_start_wait_ignores_nack :
    (I2c.blocking_read 80 2 3
        (Oracle.mk
          [⟨false, false, false, true, false, false, false, false, false, false, false⟩,
            ⟨false, false, false, true, false, false, false, false, false, false, false⟩,
            ⟨false, false, false, true, false, false, false, false, false, false, false⟩]
          [] [] [])).1 = Outcome.stuck ∧
    ¬((I2c.blocking_read 80 2 3
        (Oracle.mk
          [⟨false, false, false, true, false, false, false, false, false, false, false⟩,
            ⟨false, false, false, true, false, false, false, false, false, false, false⟩,
            ⟨false, false, false, true, false, false, false, false, false, false, false⟩]
          [] [] [])).1 = Outcome.err Error.Nack) ∧
    (I2c.check_and_clear_error_flags
        ⟨false, false, false, true, false, false, false, false, false, false,
          false⟩).1 = Except.error Error.Nack ∧
    (I2c.blocking_read 80 2 3
        (Oracle.mk
          [⟨false, false, false, true, false, false, false, false, false, false, false⟩,
            ⟨false, false, false, true, false, false, false, false, false, false, false⟩,
            ⟨false, false, false, true, false, false, false, false, false, false, false⟩]
          [] [] [])).2.1 =
      [Act.writeCr1StartAck,
        Act.readSr1 ⟨false, false, false, true, false, false, false, false, false,
          false, false⟩,
        Act.readSr1 ⟨false, false, false, true, false, false, false, false, false,
          false, false⟩,
        Act.readSr1 ⟨false, false, false, true, false, false, false, false, false,
          false, false⟩] :=
  ⟨rfl, by decide, rfl, rfl⟩

/-- Claim C1 (amended): the wait loops of `write_bytes` (START, master
role, ADDR), `send_byte` (TXE, BTF) and `recv_byte` (RXNE) run the Error
Flag Monitor first in every iteration and abort immediately with its
error, which `send_byte` and `recv_byte` propagate; but `blocking_read`'s
START-generated and master-role wait loops, and the STOP-confirm waits,
poll raw status with no error check and can never abort with an error. -/
theorem c1_wait_loops_error_check_amended (e : Error) (v : Sr1) (rest : List Sr1)
    (o : Oracle) (fuel : Nat)
    (he : (I2c.check_and_clear_error_flags v).1 = Except.error e)
    (ho : o.sr1 = v :: rest) (hf : 0 < fuel) :
    (∀ f, (I2c.waitFlag f fuel o).1 = Outcome.err e) ∧
    (I2c.waitMasterW fuel o).1 = Outcome.err e ∧
    (I2c.waitRxne fuel o).1 = Outcome.err e ∧
    (∀ b, (I2c.send_byte b fuel o).1 = Outcome.err e) ∧
    (I2c.recv_byte fuel o).1 = Outcome.err e ∧
    (∀ fuel2 o2, ¬((I2c.rawWaitStart fuel2 o2).1 = Outcome.err e)) ∧
    (∀ fuel2 o2, ¬((I2c.rawWaitMaster fuel2 o2).1 = Outcome.err e)) ∧
    (∀ fuel2 o2, ¬((I2c.stopWait fuel2 o2).1 = Outcome.err e)) := by
  refine ⟨fun f => waitFlag_err f e v rest o fuel he ho hf,
    waitMasterW_err e v rest o fuel he ho hf,
    waitRxne_err e v rest o fuel he ho hf,
    fun b => ?_, ?_,
    fun fuel2 o2 => rawWaitStart_no_err e fuel2 o2,
    fun fuel2 o2 => rawWaitMaster_no_err e fuel2 o2,
    fun fuel2 o2 => stopWait_no_err e fuel2 o2⟩
  · unfold I2c.send_byte
    exact bindStep_err _ _ e (waitFlag_err _ e v rest o fuel he ho hf)
  · unfold I2c.recv_byte
    exact bindStep_err _ _ e (waitRxne_err e v rest o fuel he ho hf)

/-- Claim C1 (witness): with a NACK flag at the head of the SR1 oracle,
the checked START wait and the checked master wait abort with Nack. -/
theorem c1_wait_loops_error_check_witness :
    (I2c.waitFlag (fun s => s.start) 1
        (Oracle.mk
          [⟨false, false, false, true, false, false, false, false, false, false,
            false⟩] [] [] [])).1 = Outcome.err Error.Nack ∧
    (I2c.waitMasterW 1
        (Oracle.mk
          [⟨false, false, false, true, false, false, false, false, false, false,
            false⟩] [] [] [])).1 = Outcome.err Error.Nack :=
  ⟨(c1_wait_loops_error_check_amended Error.Nack
      ⟨false, false, false, true, false, false, false, false, false, false, false⟩ []
      (Oracle.mk
        [⟨false, false, false, true, false, false, false, false, false, false,
          false⟩] [] [] []) 1 rfl rfl (by norm_num)).1 (fun s => s.start),
   (c1_wait_loops_error_check_amended Error.Nack
      ⟨false, false, false, true, false, false, false, false, false, false, false⟩ []
      (Oracle.mk
        [⟨false, false, false, true, false, false, false, false, false, false,
          false⟩] [] [] []) 1 rfl rfl (by norm_num)).2.1⟩

/-- Claim C7: the first data-register write of a transaction (its
address-phase byte) is `addr << 1` (bit 0 = 0) in the write phase
(`write_bytes`, used by `blocking_write` and by the write phase of
`blocking_write_read`) and `(addr << 1) + 1` (bit 0 = 1) in
`blocking_read`, in u8 arithmetic, for every oracle and fuel. -/
theorem c7_address_byte_direction (addr : Nat) (bytes : List Nat) (n fuel : Nat)
    (o : Oracle) :
    (∀ b, firstDr (I2c.write_bytes addr bytes fuel o).2.1 = some b →
      b = (2 * addr) % 256) ∧
    (∀ b, firstDr (I2c.blocking_read addr n fuel o).2.1 = some b →
      b = ((2 * addr) % 256 + 1) % 256) := by
  constructor
  · intro b hb
    unfold I2c.write_bytes at hb
    rw [bindStep_trace] at hb
    dsimp only at hb
    simp only [List.append_eq, List.cons_append, List.nil_append, firstDr] at hb
    rw [bindStep_trace] at hb
    rw [firstDr_status_append _ _ (waitFlag_status (fun s => s.start) fuel o)] at hb
    set w := I2c.waitFlag (fun s => s.start) fuel o with hw
    obtain ⟨r1, tr1, o1⟩ := w
    cases r1 with
    | err e2 => dsimp only at hb; simp [firstDr] at hb
    | stuck => dsimp only at hb; simp [firstDr] at hb
    | ok a =>
      dsimp only at hb
      rw [bindStep_trace] at hb
      rw [firstDr_status_append _ _ (waitMasterW_status fuel o1)] at hb
      set w2 := I2c.waitMasterW fuel o1 with hw2
      obtain ⟨r2, tr2, o2⟩ := w2
      cases r2 with
      | err e2 => dsimp only at hb; simp [firstDr] at hb
      | stuck => dsimp only at hb; simp [firstDr] at hb
      | ok a2 =>
        dsimp only at hb
        rw [bindStep_trace] at hb
        dsimp only at hb
        simp only [List.append_eq, List.cons_append, List.nil_append, firstDr] at hb
        exact (Option.some.inj hb).symm
  · intro b hb
    unfold I2c.blocking_read at hb
    by_cases hn : n = 0
    · rw [if_pos hn] at hb
      simp [firstDr] at hb
    · rw [if_neg hn] at hb
      rw [bindStep_trace] at hb
      dsimp only at hb
      simp only [List.append_eq, List.cons_append, List.nil_append, firstDr] at hb
      rw [bindStep_trace] at hb
      rw [firstDr_status_append _ _ (rawWaitStart_status fuel o)] at hb
      set w := I2c.rawWaitStart fuel o with hw
      obtain ⟨r1, tr1, o1⟩ := w
      cases r1 with
      | err e2 => dsimp only at hb; simp [firstDr] at hb
      | stuck => dsimp only at hb; simp [firstDr] at hb
      | ok a =>
        dsimp only at hb
        rw [bindStep_trace] at hb
        rw [firstDr_status_append _ _ (rawWaitMaster_status fuel o1)] at hb
        set w2 := I2c.rawWaitMaster fuel o1 with hw2
        obtain ⟨r2, tr2, o2⟩ := w2
        cases r2 with
        | err e2 => dsimp only at hb; simp [firstDr] at hb
        | stuck => dsimp only at hb; simp [firstDr] at hb
        | ok a2 =>
          dsimp only at hb
          rw [bindStep_trace] at hb
          dsimp only at hb
          simp only [List.append_eq, List.cons_append, List.nil_append, firstDr] at hb
          exact (Option.some.inj hb).symm

/-- Claim C7 (witness): at address 66 on the happy-path oracle the write
phase address byte is 132 = 66<<1 and the read address byte is 133. -/
theorem c7_address_byte_direction_witness :
    (132 : Nat) = (2 * 66) % 256 ∧ (133 : Nat) = ((2 * 66) % 256 + 1) % 256 :=
  ⟨(c7_address_byte_direction 66 [1] 0 2 (happyOracle 170 187)).1 132 rfl,
   (c7_address_byte_direction 66 [] 2 2 (happyOracle 170 187)).2 133 rfl⟩

/-- Claim C4: on the happy-path oracle, `blocking_write_read addr [0x01]`
into a two-byte buffer returns both bytes, and its bus-level trace is
exactly: START request, address byte `addr<<1|0`, data byte 1, repeated
START request with no STOP in between, address byte `addr<<1|1`, first
data byte drained, ACK disabled with STOP requested, and only then the
final data byte drained. -/
theorem c4_write_read_sequence (addr b0 b1 : Nat) (h : addr < 128) :
    (I2c.blocking_write_read addr [1] 2 2 (happyOracle b0 b1)).1 =
      Outcome.ok [b0, b1] ∧
    List.filter Act.isBusOp (I2c.blocking_write_read addr [1] 2 2
        (happyOracle b0 b1)).2.1 =
      [Act.writeCr1Start, Act.writeDr (2 * addr), Act.writeDr 1, Act.writeCr1StartAck,
        Act.writeDr (2 * addr + 1), Act.readDr b0, Act.writeCr1AckOffStop,
        Act.readDr b1] := by
  have h1 : (2 * addr) % 256 = 2 * addr := Nat.mod_eq_of_lt (by omega)
  have h2 : (2 * addr + 1) % 256 = 2 * addr + 1 := Nat.mod_eq_of_lt (by omega)
  constructor
  · rfl
  · have key : List.filter Act.isBusOp (I2c.blocking_write_read addr [1] 2 2
        (happyOracle b0 b1)).2.1 =
        [Act.writeCr1Start, Act.writeDr ((2 * addr) % 256), Act.writeDr 1,
          Act.writeCr1StartAck, Act.writeDr (((2 * addr) % 256 + 1) % 256),
          Act.readDr b0, Act.writeCr1AckOffStop, Act.readDr b1] := rfl
    rw [key, h1, h2]

/-- Claim C4 (witness): concrete run at address 66 receiving bytes 170
and 187. -/
theorem c4_write_read_sequence_witness :
    (I2c.blocking_write_read 66 [1] 2 2 (happyOracle 170 187)).1 =
      Outcome.ok [170, 187] ∧
    List.filter Act.isBusOp (I2c.blocking_write_read 66 [1] 2 2
        (happyOracle 170 187)).2.1 =
      [Act.writeCr1Start, Act.writeDr 132, Act.writeDr 1, Act.writeCr1StartAck,
        Act.writeDr 133, Act.readDr 170, Act.writeCr1AckOffStop, Act.readDr 187] :=
  c4_write_read_sequence 66 170 187 (by norm_num)

/-- Claim C6: whenever `set_config` runs (the recomputed `Timings` does
not panic), its register-access trace consists only of the three
clock-register writes (CR2.FREQ, CCR, TRISE); in particular it performs
no CR1 access, leaving the peripheral-enable bit and every other
register unchanged. -/
theorem c6_set_config_frame (clock target : Nat) (tr : List Act)
    (h : I2c.set_config clock target = Except.ok tr) :
    (∀ a ∈ tr, a.isClockWrite = true) ∧ (∀ a ∈ tr, a.isCr1Write = false) := by
  rcases hT : Timings.new clock target with f | t
  · simp [I2c.set_config, hT] at h
  · simp only [I2c.set_config, hT, Except.ok.injEq] at h
    subst h
    constructor <;> intro a ha <;> simp only [List.mem_cons, List.mem_singleton] at ha <;>
      rcases ha with rfl | rfl | rfl | ha <;> first | rfl | simp at ha

/-- Claim C6 (witness): the first write of the concrete reconfiguration
at (8 MHz, 100 kHz) is the clock-register write CR2.FREQ := 8, and it is
not a CR1 write. -/
theorem c6_set_config_frame_witness :
    Act.isClockWrite (Act.writeCr2Freq 8) = true ∧
    Act.isCr1Write (Act.writeCr2Freq 8) = false :=
  ⟨(c6_set_config_frame 8000000 100000
      [Act.writeCr2Freq 8, Act.writeCcr Mode.Standard Duty.Duty2_1 40,
        Act.writeTrise 9] rfl).1 (Act.writeCr2Freq 8) (by simp),
   (c6_set_config_frame 8000000 100000
      [Act.writeCr2Freq 8, Act.writeCcr Mode.Standard Duty.Duty2_1 40,
        Act.writeTrise 9] rfl).2 (Act.writeCr2Freq 8) (by simp)⟩
